import Mathlib

/-!
Shallow embedding of `particle_filter.cpp` (CarND-Kidnapped-Vehicle-Project).
The source file contains two revisions of the particle filter, separated in
the original file; definitions below carry a `_v1` / `_v2` suffix for the
first and second revision respectively.  C++ `double` values are modelled as
real numbers, the standard math functions as their `Real` counterparts, and
the random engines as explicit sample streams passed in as parameters.
-/

noncomputable section

namespace KidnappedVehicle

/-- A particle: a pose hypothesis with an importance weight, as in
`particle_filter.h` (fields `id, x, y, theta, weight, associations,
sense_x, sense_y`). -/
structure Particle where
  id : Int
  x : ℝ
  y : ℝ
  theta : ℝ
  weight : ℝ
  associations : List Int
  sense_x : List ℝ
  sense_y : List ℝ
deriving Inhabited

/-- A landmark observation (`LandmarkObs` in the C++ source): an id and
map- or vehicle-frame coordinates. -/
structure LandmarkObs where
  id : Int
  x : ℝ
  y : ℝ
deriving Inhabited

/-- A map landmark (`Map::single_landmark_s` in the C++ source). -/
structure SingleLandmark where
  id_i : Int
  x_f : ℝ
  y_f : ℝ
deriving Inhabited

/-- Modelled from the spec: the Euclidean distance helper `dist(x1, y1, x2, y2)`
declared in `helper_functions.h`, which is not part of the sources; the spec
describes it as the Euclidean distance between the two points. -/
def dist (x1 y1 x2 y2 : ℝ) : ℝ :=
  Real.sqrt ((x2 - x1) ^ 2 + (y2 - y1) ^ 2)

/-- The C `DBL_MAX` constant, 1.7976931348623157e308, used by both revisions
to initialise the running minimum distance. -/
def DBL_MAX : ℝ := 17976931348623157 * 10 ^ 292

/-- Revision 1 of `ParticleFilter::convertVehicleToMapCoords`
(`particle_filter.cpp`, first revision): mutates the observation in place,
first overwriting `observation.x` and then computing `observation.y` from the
already-overwritten `observation.x`. -/
def convertVehicleToMapCoords_v1 (observation : LandmarkObs) (particle : Particle) :
    LandmarkObs :=
  let newX := particle.x + observation.x * Real.cos particle.theta -
      observation.y * Real.sin particle.theta
  let newY := particle.y + newX * Real.sin particle.theta +
      observation.y * Real.cos particle.theta
  { observation with x := newX, y := newY }

/-- Revision 2 of `ParticleFilter::convertVehicleToMapCoords`: builds a fresh
`LandmarkObs` whose both coordinates are computed from the untouched input. -/
def convertVehicleToMapCoords_v2 (observationToConvert : LandmarkObs) (particle : Particle) :
    LandmarkObs :=
  { id := observationToConvert.id
    x := particle.x + observationToConvert.x * Real.cos particle.theta -
        observationToConvert.y * Real.sin particle.theta
    y := particle.y + observationToConvert.x * Real.sin particle.theta +
        observationToConvert.y * Real.cos particle.theta }

/-- The deterministic (pre-noise) kinematic update of
`ParticleFilter::prediction`; both revisions perform the identical sequence
of in-place updates: `x += ...`, `y += ...` (branching on
`abs(yaw_rate) > 0.0001`), then `theta = prev_theta + yaw_rate * delta_t`. -/
def predictDet (delta_t velocity yaw_rate : ℝ) (p : Particle) : Particle :=
  let prev_theta := p.theta
  let p1 :=
    if 0.0001 < |yaw_rate| then
      let pa := { p with x := p.x + (velocity / yaw_rate) *
          (Real.sin (prev_theta + yaw_rate * delta_t) - Real.sin prev_theta) }
      { pa with y := pa.y + (velocity / yaw_rate) *
          (Real.cos prev_theta - Real.cos (prev_theta + yaw_rate * delta_t)) }
    else
      let pa := { p with x := p.x + velocity * delta_t * Real.cos prev_theta }
      { pa with y := pa.y + velocity * delta_t * Real.sin prev_theta }
  { p1 with theta := prev_theta + yaw_rate * delta_t }

/-- The per-particle Gaussian noise injection of `ParticleFilter::prediction`:
adds the three noise samples drawn for this particle to `x`, `y`, `theta`. -/
def addNoise (n : ℝ × ℝ × ℝ) (p : Particle) : Particle :=
  { p with x := p.x + n.1, y := p.y + n.2.1, theta := p.theta + n.2.2 }

/-- The particle loop of `ParticleFilter::prediction`, with the noise stream
indexed by particle position (`noise k` is the triple of samples drawn for
the `k`-th particle). -/
def predictionGo (delta_t velocity yaw_rate : ℝ) (noise : Nat → ℝ × ℝ × ℝ) :
    Nat → List Particle → List Particle
  | _, [] => []
  | k, p :: rest =>
      addNoise (noise k) (predictDet delta_t velocity yaw_rate p) ::
        predictionGo delta_t velocity yaw_rate noise (k + 1) rest

/-- `ParticleFilter::prediction` (identical kinematics in both revisions),
with the random engine modelled as an explicit noise stream. -/
def prediction (delta_t velocity yaw_rate : ℝ) (noise : Nat → ℝ × ℝ × ℝ)
    (particles : List Particle) : List Particle :=
  predictionGo delta_t velocity yaw_rate noise 0 particles

/-- Distance between a (map-frame) observation and a map landmark, in the
argument order used by both revisions:
`dist(landmark.x_f, landmark.y_f, observation.x, observation.y)`. -/
def obsDist (o : LandmarkObs) (l : SingleLandmark) : ℝ :=
  dist l.x_f l.y_f o.x o.y

/-- The inner scan of revision 2's `ParticleFilter::dataAssociation`:
starting from `minDistance = DBL_MAX` and the (uninitialised, modelled as 0)
`indexOfLandmark`, it walks the candidate list and updates both whenever the
current distance is `<=` the running minimum.  `k` is the index of the head
of the remaining list in the full candidate list. -/
def assocScan (o : LandmarkObs) : List SingleLandmark → ℝ → Nat → Nat → Nat
  | [], _, best, _ => best
  | l :: rest, minD, best, k =>
      if obsDist o l ≤ minD then assocScan o rest (obsDist o l) k (k + 1)
      else assocScan o rest minD best (k + 1)

/-- The index selected by revision 2's `dataAssociation` for one observation. -/
def assocIndex (landmarks : List SingleLandmark) (o : LandmarkObs) : Nat :=
  assocScan o landmarks DBL_MAX 0 0

/-- The `LandmarkObs` that revision 2's `dataAssociation` builds from the
selected landmark (`closestLandmark` in the source). -/
def landmarkToObs (l : SingleLandmark) : LandmarkObs :=
  { id := l.id_i, x := l.x_f, y := l.y_f }

/-- Revision 2 of `ParticleFilter::dataAssociation`: for each observation in
input order, scans all candidates (no range filtering) and returns the
selected landmark as a `LandmarkObs`. -/
def dataAssociation_v2 (landmarks : List SingleLandmark)
    (observations : List LandmarkObs) : List LandmarkObs :=
  observations.map fun o => landmarkToObs (landmarks.getD (assocIndex landmarks o) default)

/-- The inner scan of revision 1's `ParticleFilter::dataAssociation`: same as
revision 2's scan, except that a candidate is considered only when its
distance to the observation is `<= sensor_range`. -/
def assocScanRange (sensor_range : ℝ) (o : LandmarkObs) :
    List SingleLandmark → ℝ → Nat → Nat → Nat
  | [], _, best, _ => best
  | l :: rest, minD, best, k =>
      if obsDist o l ≤ sensor_range then
        if obsDist o l ≤ minD then assocScanRange sensor_range o rest (obsDist o l) k (k + 1)
        else assocScanRange sensor_range o rest minD best (k + 1)
      else assocScanRange sensor_range o rest minD best (k + 1)

/-- Revision 1 of `ParticleFilter::dataAssociation`: returns the index (into
the full landmark list) of the landmark selected for the observation,
starting from `minDistance = DBL_MAX` and `indexOfLandmark = 0`. -/
def dataAssociation_v1 (sensor_range : ℝ) (landmarks : List SingleLandmark)
    (observation : LandmarkObs) : Nat :=
  assocScanRange sensor_range observation landmarks DBL_MAX 0 0

/-- Characterisation of revision 2's association scan: either no candidate
ever beats the initial running minimum (and the result is the incoming
`best`), or the result is the index of a candidate at the global minimum
distance, and strictly closer than every later candidate (i.e. the largest
index attaining the minimum). -/
theorem assocScan_spec (o : LandmarkObs) (ls : List SingleLandmark) :
    ∀ (minD : ℝ) (best k : Nat),
      (assocScan o ls minD best k = best ∧
        ∀ i, i < ls.length → minD < obsDist o (ls.getD i default)) ∨
      (∃ i, i < ls.length ∧ assocScan o ls minD best k = k + i ∧
        obsDist o (ls.getD i default) ≤ minD ∧
        (∀ j, j < ls.length →
          obsDist o (ls.getD i default) ≤ obsDist o (ls.getD j default)) ∧
        (∀ j, j < ls.length → i < j →
          obsDist o (ls.getD i default) < obsDist o (ls.getD j default))) := by
  induction ls with
  | nil =>
      intro minD best k
      left
      exact ⟨rfl, fun i hi => absurd hi (by simp)⟩
  | cons l rest ih =>
      intro minD best k
      by_cases hd : obsDist o l ≤ minD
      · right
        have hres0 : assocScan o (l :: rest) minD best k =
            assocScan o rest (obsDist o l) k (k + 1) := by
          simp [assocScan, hd]
        rcases ih (obsDist o l) k (k + 1) with ⟨hres, hall⟩ | ⟨i, hi, hres, hle, hmin, hstrict⟩
        · refine ⟨0, by simp, ?_, ?_, ?_, ?_⟩
          · rw [hres0, hres]; omega
          · simpa using hd
          · intro j hj
            cases j with
            | zero => simp
            | succ j' =>
                have hj' : j' < rest.length := by simpa using hj
                simpa using le_of_lt (hall j' hj')
          · intro j hj hlt
            cases j with
            | zero => exact absurd hlt (by simp)
            | succ j' =>
                have hj' : j' < rest.length := by simpa using hj
                simpa using hall j' hj'
        · refine ⟨i + 1, by simpa using hi, ?_, ?_, ?_, ?_⟩
          · rw [hres0, hres]; omega
          · simpa using le_trans hle hd
          · intro j hj
            cases j with
            | zero => simpa using hle
            | succ j' =>
                have hj' : j' < rest.length := by simpa using hj
                simpa using hmin j' hj'
          · intro j hj hlt
            cases j with
            | zero => exact absurd hlt (by omega)
            | succ j' =>
                have hj' : j' < rest.length := by simpa using hj
                have : i < j' := by omega
                simpa using hstrict j' hj' this
      · have hres0 : assocScan o (l :: rest) minD best k =
            assocScan o rest minD best (k + 1) := by
          simp [assocScan, hd]
        have hlt : minD < obsDist o l := lt_of_not_le hd
        rcases ih minD best (k + 1) with ⟨hres, hall⟩ | ⟨i, hi, hres, hle, hmin, hstrict⟩
        · left
          refine ⟨by rw [hres0, hres], ?_⟩
          intro j hj
          cases j with
          | zero => simpa using hlt
          | succ j' =>
              have hj' : j' < rest.length := by simpa using hj
              simpa using hall j' hj'
        · right
          refine ⟨i + 1, by simpa using hi, ?_, ?_, ?_, ?_⟩
          · rw [hres0, hres]; omega
          · simpa using hle
          · intro j hj
            cases j with
            | zero => simpa using le_of_lt (lt_of_le_of_lt hle hlt)
            | succ j' =>
                have hj' : j' < rest.length := by simpa using hj
                simpa using hmin j' hj'
          · intro j hj hjlt
            cases j with
            | zero => exact absurd hjlt (by omega)
            | succ j' =>
                have hj' : j' < rest.length := by simpa using hj
                have : i < j' := by omega
                simpa using hstrict j' hj' this

/-- When every candidate is within the sensor range, revision 1's range-guarded
scan behaves exactly like revision 2's unguarded scan. -/
theorem assocScanRange_eq_assocScan (sensor_range : ℝ) (o : LandmarkObs) :
    ∀ (ls : List SingleLandmark), (∀ l ∈ ls, obsDist o l ≤ sensor_range) →
      ∀ (minD : ℝ) (best k : Nat),
        assocScanRange sensor_range o ls minD best k = assocScan o ls minD best k := by
  intro ls
  induction ls with
  | nil => intro _ minD best k; rfl
  | cons l rest ih =>
      intro hall minD best k
      have hl : obsDist o l ≤ sensor_range := hall l (by simp)
      have hrest : ∀ l ∈ rest, obsDist o l ≤ sensor_range :=
        fun x hx => hall x (by simp [hx])
      by_cases hd : obsDist o l ≤ minD
      · simp [assocScanRange, assocScan, hl, hd, ih hrest]
      · simp [assocScanRange, assocScan, hl, hd, ih hrest]

/-- C3 counterexample: with the two candidates ⟨id 7, (5,5)⟩ and ⟨id 8, (5,5)⟩
at exactly the same distance from the observation (5,5), revision 2's
`dataAssociation` returns the candidate at the *larger* index (id 8), not the
smaller-index one (id 7) as the claim states. -/
theorem dataAssociation_tie_counterexample :
    dataAssociation_v2 [⟨7, 5, 5⟩, ⟨8, 5, 5⟩] [⟨0, 5, 5⟩] = [landmarkToObs ⟨8, 5, 5⟩] ∧
    dataAssociation_v2 [⟨7, 5, 5⟩, ⟨8, 5, 5⟩] [⟨0, 5, 5⟩] ≠ [landmarkToObs ⟨7, 5, 5⟩] := by
  have h7 : obsDist ⟨0, 5, 5⟩ ⟨7, 5, 5⟩ = 0 := by
    simp only [obsDist, dist]
    norm_num
  have h8 : obsDist ⟨0, 5, 5⟩ ⟨8, 5, 5⟩ = 0 := by
    simp only [obsDist, dist]
    norm_num
  have hidx : assocIndex [⟨7, 5, 5⟩, ⟨8, 5, 5⟩] ⟨0, 5, 5⟩ = 1 := by
    simp only [assocIndex, assocScan, h7, h8]
    norm_num [DBL_MAX]
  have heq : dataAssociation_v2 [⟨7, 5, 5⟩, ⟨8, 5, 5⟩] [⟨0, 5, 5⟩] =
      [landmarkToObs ⟨8, 5, 5⟩] := by
    simp [dataAssociation_v2, hidx]
  refine ⟨heq, ?_⟩
  rw [heq]
  intro hcontra
  have hids := congrArg (fun xs : List LandmarkObs => (xs.getD 0 default).id) hcontra
  simp [landmarkToObs] at hids

/-- C3 (amended): for a non-empty candidate list whose distances do not
exceed `DBL_MAX`, revision 2's `dataAssociation` selects an in-range index
whose candidate attains the minimum Euclidean distance, and ties are broken
towards the *larger* index (every later candidate is strictly farther);
the routine returns, for each observation in order, the landmark at that
selected index. -/
theorem dataAssociation_nearest (landmarks : List SingleLandmark) (o : LandmarkObs)
    (hne : landmarks ≠ [])
    (hbound : ∀ l ∈ landmarks, obsDist o l ≤ DBL_MAX) :
    assocIndex landmarks o < landmarks.length ∧
    (∀ j, j < landmarks.length →
      obsDist o (landmarks.getD (assocIndex landmarks o) default) ≤
        obsDist o (landmarks.getD j default)) ∧
    (∀ j, j < landmarks.length → assocIndex landmarks o < j →
      obsDist o (landmarks.getD (assocIndex landmarks o) default) <
        obsDist o (landmarks.getD j default)) ∧
    (∀ observations, dataAssociation_v2 landmarks observations =
      observations.map fun ob =>
        landmarkToObs (landmarks.getD (assocIndex landmarks ob) default)) := by
  rcases assocScan_spec o landmarks DBL_MAX 0 0 with ⟨_, hall⟩ | ⟨i, hi, hres, _, hmin, hstrict⟩
  · obtain ⟨l, rest, rfl⟩ := List.exists_cons_of_ne_nil hne
    have h0 := hall 0 (by simp)
    have hb := hbound l (by simp)
    rw [List.getD_cons_zero] at h0
    exact absurd hb (not_le.mpr h0)
  · have hidx : assocIndex landmarks o = i := by simpa [assocIndex] using hres
    rw [hidx]
    exact ⟨hi, hmin, hstrict, fun observations => rfl⟩

/-- Witness for `dataAssociation_nearest`: the candidates ⟨id 1, (0,0)⟩ and
⟨id 2, (3,0)⟩ with the observation (0,0). -/
theorem dataAssociation_nearest_witness :
    (([⟨1, 0, 0⟩, ⟨2, 3, 0⟩] : List SingleLandmark) ≠ []) ∧
    (∀ l ∈ ([⟨1, 0, 0⟩, ⟨2, 3, 0⟩] : List SingleLandmark),
      obsDist ⟨0, 0, 0⟩ l ≤ DBL_MAX) ∧
    (assocIndex [⟨1, 0, 0⟩, ⟨2, 3, 0⟩] ⟨0, 0, 0⟩ <
        ([⟨1, 0, 0⟩, ⟨2, 3, 0⟩] : List SingleLandmark).length ∧
      (∀ j, j < ([⟨1, 0, 0⟩, ⟨2, 3, 0⟩] : List SingleLandmark).length →
        obsDist ⟨0, 0, 0⟩
            (([⟨1, 0, 0⟩, ⟨2, 3, 0⟩] : List SingleLandmark).getD
              (assocIndex [⟨1, 0, 0⟩, ⟨2, 3, 0⟩] ⟨0, 0, 0⟩) default) ≤
          obsDist ⟨0, 0, 0⟩
            (([⟨1, 0, 0⟩, ⟨2, 3, 0⟩] : List SingleLandmark).getD j default)) ∧
      (∀ j, j < ([⟨1, 0, 0⟩, ⟨2, 3, 0⟩] : List SingleLandmark).length →
        assocIndex [⟨1, 0, 0⟩, ⟨2, 3, 0⟩] ⟨0, 0, 0⟩ < j →
        obsDist ⟨0, 0, 0⟩
            (([⟨1, 0, 0⟩, ⟨2, 3, 0⟩] : List SingleLandmark).getD
              (assocIndex [⟨1, 0, 0⟩, ⟨2, 3, 0⟩] ⟨0, 0, 0⟩) default) <
          obsDist ⟨0, 0, 0⟩
            (([⟨1, 0, 0⟩, ⟨2, 3, 0⟩] : List SingleLandmark).getD j default)) ∧
      (∀ observations, dataAssociation_v2 [⟨1, 0, 0⟩, ⟨2, 3, 0⟩] observations =
        observations.map fun ob =>
          landmarkToObs (([⟨1, 0, 0⟩, ⟨2, 3, 0⟩] : List SingleLandmark).getD
            (assocIndex [⟨1, 0, 0⟩, ⟨2, 3, 0⟩] ob) default))) := by
  have hne : ([⟨1, 0, 0⟩, ⟨2, 3, 0⟩] : List SingleLandmark) ≠ [] := by simp
  have hbound : ∀ l ∈ ([⟨1, 0, 0⟩, ⟨2, 3, 0⟩] : List SingleLandmark),
      obsDist ⟨0, 0, 0⟩ l ≤ DBL_MAX := by
    intro l hl
    have h9 : Real.sqrt 9 = 3 := by
      rw [show (9 : ℝ) = 3 ^ 2 by norm_num, Real.sqrt_sq (by norm_num)]
    fin_cases hl
    · simp only [obsDist, dist]
      norm_num [DBL_MAX]
    · simp only [obsDist, dist]
      rw [show ((0 : ℝ) - 3) ^ 2 + ((0 : ℝ) - 0) ^ 2 = 9 by norm_num, h9]
      norm_num [DBL_MAX]
  exact ⟨hne, hbound, dataAssociation_nearest _ _ hne hbound⟩

/-- C6 counterexample: revision 1's `dataAssociation` does depend on the
sensor-range threshold: with candidates ⟨id 1, (10,0)⟩ and ⟨id 2, (3,0)⟩ and
observation (0,0), a range of 2 excludes every candidate and the routine
falls back to index 0, while a range of 20 selects the nearest candidate at
index 1. -/
theorem dataAssociation_v1_range_counterexample :
    dataAssociation_v1 2 [⟨1, 10, 0⟩, ⟨2, 3, 0⟩] ⟨0, 0, 0⟩ = 0 ∧
    dataAssociation_v1 20 [⟨1, 10, 0⟩, ⟨2, 3, 0⟩] ⟨0, 0, 0⟩ = 1 ∧
    (0 : Nat) ≠ 1 := by
  have h10 : obsDist ⟨0, 0, 0⟩ ⟨1, 10, 0⟩ = 10 := by
    simp only [obsDist, dist]
    rw [show ((0 : ℝ) - 10) ^ 2 + ((0 : ℝ) - 0) ^ 2 = 10 ^ 2 by norm_num,
      Real.sqrt_sq (by norm_num)]
  have h3 : obsDist ⟨0, 0, 0⟩ ⟨2, 3, 0⟩ = 3 := by
    simp only [obsDist, dist]
    rw [show ((0 : ℝ) - 3) ^ 2 + ((0 : ℝ) - 0) ^ 2 = 3 ^ 2 by norm_num,
      Real.sqrt_sq (by norm_num)]
  refine ⟨?_, ?_, by norm_num⟩
  · simp only [dataAssociation_v1, assocScanRange, h10, h3]
    norm_num
  · simp only [dataAssociation_v1, assocScanRange, h10, h3]
    norm_num [DBL_MAX]

/-- C6 (amended): revision 2's `dataAssociation` performs no range filtering
at all, while revision 1's filters internally; whenever every candidate lies
within the sensor range, revision 1's filtered selection coincides with the
pure nearest-neighbour selection of revision 2. -/
theorem dataAssociation_v1_inRange_eq (sensor_range : ℝ)
    (landmarks : List SingleLandmark) (o : LandmarkObs)
    (hall : ∀ l ∈ landmarks, obsDist o l ≤ sensor_range) :
    dataAssociation_v1 sensor_range landmarks o = assocIndex landmarks o := by
  simp only [dataAssociation_v1, assocIndex]
  exact assocScanRange_eq_assocScan sensor_range o landmarks hall DBL_MAX 0 0

/-- Witness for `dataAssociation_v1_inRange_eq`: candidates ⟨id 3, (0,0)⟩ and
⟨id 4, (4,0)⟩, observation (0,0), sensor range 5. -/
theorem dataAssociation_v1_inRange_eq_witness :
    (∀ l ∈ ([⟨3, 0, 0⟩, ⟨4, 4, 0⟩] : List SingleLandmark),
      obsDist ⟨0, 0, 0⟩ l ≤ 5) ∧
    dataAssociation_v1 5 [⟨3, 0, 0⟩, ⟨4, 4, 0⟩] ⟨0, 0, 0⟩ =
      assocIndex [⟨3, 0, 0⟩, ⟨4, 4, 0⟩] ⟨0, 0, 0⟩ := by
  have hall : ∀ l ∈ ([⟨3, 0, 0⟩, ⟨4, 4, 0⟩] : List SingleLandmark),
      obsDist ⟨0, 0, 0⟩ l ≤ 5 := by
    intro l hl
    fin_cases hl
    · simp only [obsDist, dist]
      norm_num
    · simp only [obsDist, dist]
      rw [show ((0 : ℝ) - 4) ^ 2 + ((0 : ℝ) - 0) ^ 2 = 4 ^ 2 by norm_num,
        Real.sqrt_sq (by norm_num)]
      norm_num
  exact ⟨hall, dataAssociation_v1_inRange_eq 5 _ _ hall⟩

/-- The bivariate Gaussian density `multi_gaussian` computed by both
revisions of `updateWeights`: `1/(2π·σx·σy) · exp(−(Δx²/(2σx²) + Δy²/(2σy²)))`. -/
def multiGaussian (std_x std_y diff_x diff_y : ℝ) : ℝ :=
  (1 / (2 * Real.pi * std_x * std_y)) *
    Real.exp (-((diff_x * diff_x) / (2 * (std_x * std_x)) +
      (diff_y * diff_y) / (2 * (std_y * std_y))))

/-- The body of revision 1's `updateWeights` particle loop: for each
observation (converted with the revision-1 transform, associated with the
revision-1 range-filtering association), the Gaussian density is multiplied
into the particle's *existing* weight (`particles[i].weight *= ...`). -/
def updateWeightsP_v1 (sensor_range std_x std_y : ℝ) (observations : List LandmarkObs)
    (map_landmarks : List SingleLandmark) (p : Particle) : Particle :=
  { p with
    weight := observations.foldl (fun w o =>
      let current_obs := convertVehicleToMapCoords_v1 o p
      let land_index := dataAssociation_v1 sensor_range map_landmarks current_obs
      let lm := map_landmarks.getD land_index default
      w * multiGaussian std_x std_y (lm.x_f - current_obs.x) (lm.y_f - current_obs.y))
      p.weight }

/-- Revision 1 of `ParticleFilter::updateWeights`. -/
def updateWeights_v1 (sensor_range std_x std_y : ℝ) (observations : List LandmarkObs)
    (map_landmarks : List SingleLandmark) (particles : List Particle) : List Particle :=
  particles.map (updateWeightsP_v1 sensor_range std_x std_y observations map_landmarks)

/-- The body of revision 2's `updateWeights` particle loop: filters the map
landmarks to those within `sensor_range` of the particle, converts all
observations with the revision-2 transform, associates them with the
revision-2 (pure) association, accumulates the Gaussian product into a local
starting at 1.0, and *overwrites* the particle's weight with it. -/
def updateWeightsP_v2 (sensor_range std_x std_y : ℝ) (observations : List LandmarkObs)
    (map_landmarks : List SingleLandmark) (p : Particle) : Particle :=
  let predicted_landmarks := map_landmarks.filter fun l =>
    decide (dist p.x p.y l.x_f l.y_f ≤ sensor_range)
  let convertedObservations := observations.map fun o => convertVehicleToMapCoords_v2 o p
  let associatedLandmarks := dataAssociation_v2 predicted_landmarks convertedObservations
  let multi_gaussian := (associatedLandmarks.zip convertedObservations).foldl
    (fun w lc => w * multiGaussian std_x std_y (lc.1.x - lc.2.x) (lc.1.y - lc.2.y)) 1
  { p with weight := multi_gaussian }

/-- Revision 2 of `ParticleFilter::updateWeights`. -/
def updateWeights_v2 (sensor_range std_x std_y : ℝ) (observations : List LandmarkObs)
    (map_landmarks : List SingleLandmark) (particles : List Particle) : List Particle :=
  particles.map (updateWeightsP_v2 sensor_range std_x std_y observations map_landmarks)

/-- Overwrite the weight of the `k`-th (and following) particles with the
values of the stream `w`; used to speak about two particle sets that differ
only in their carried weights. -/
def setWeightsGo (w : Nat → ℝ) : Nat → List Particle → List Particle
  | _, [] => []
  | k, p :: rest => { p with weight := w k } :: setWeightsGo w (k + 1) rest

/-- Overwrite every particle's weight with the values of the stream `w`. -/
def setWeights (w : Nat → ℝ) (particles : List Particle) : List Particle :=
  setWeightsGo w 0 particles

/-- `ParticleFilter::resample` (identical in both revisions): copies the
particle list, then rebuilds it by pushing `particlesCopy[weights_dist(gen)]`
once per particle; the random draws of `discrete_distribution` are modelled
by the explicit index stream `draw`. -/
def resample (particles : List Particle) (draw : Nat → Nat) : List Particle :=
  (List.range particles.length).map fun par_index => particles.getD (draw par_index) default

/-- The filter state: the particle vector plus `num_particles` and the
`is_initialized` flag of class `ParticleFilter`. -/
structure ParticleFilterState where
  particles : List Particle
  num_particles : Nat
  initDone : Bool

/-- The particles pushed by one run of the `init` loop: sequential ids,
positions drawn from the three Gaussian sample streams, weight 1.0. -/
def initParticles (n : Nat) (sample_x sample_y sample_theta : Nat → ℝ) : List Particle :=
  (List.range n).map fun i =>
    { id := Int.ofNat i, x := sample_x i, y := sample_y i, theta := sample_theta i
      weight := 1, associations := [], sense_x := [], sense_y := [] }

/-- Revision 1 of `ParticleFilter::init`: sets `num_particles = 100`, marks
the filter initialised, and `push_back`s 100 fresh particles onto the
*existing* particle vector (the vector is never cleared). -/
def init_v1 (st : ParticleFilterState) (sample_x sample_y sample_theta : Nat → ℝ) :
    ParticleFilterState :=
  { num_particles := 100, initDone := true
    particles := st.particles ++ initParticles 100 sample_x sample_y sample_theta }

/-- Revision 2 of `ParticleFilter::init`: identical except `num_particles = 200`. -/
def init_v2 (st : ParticleFilterState) (sample_x sample_y sample_theta : Nat → ℝ) :
    ParticleFilterState :=
  { num_particles := 200, initDone := true
    particles := st.particles ++ initParticles 200 sample_x sample_y sample_theta }

/-- A particle at the origin carrying the given weight. -/
def plainParticle (w : ℝ) : Particle :=
  { id := 0, x := 0, y := 0, theta := 0, weight := w
    associations := [], sense_x := [], sense_y := [] }

/-- A filter state with no particles, as before the first `init` call. -/
def emptyFilter : ParticleFilterState :=
  { particles := [], num_particles := 0, initDone := false }

/-- Mapping a function that ignores the carried weight over a weight-reset
list is the same as mapping it over the original list. -/
theorem map_setWeightsGo (f : Particle → Particle)
    (hf : ∀ (p : Particle) (c : ℝ), f { p with weight := c } = f p) (w : Nat → ℝ) :
    ∀ (k : Nat) (ps : List Particle), (setWeightsGo w k ps).map f = ps.map f := by
  intro k ps
  induction ps generalizing k with
  | nil => rfl
  | cons p rest ih => simp [setWeightsGo, hf, ih]

/-- The length of the `prediction` loop output equals its input length. -/
theorem predictionGo_length (delta_t velocity yaw_rate : ℝ) (noise : Nat → ℝ × ℝ × ℝ) :
    ∀ (ps : List Particle) (k : Nat),
      (predictionGo delta_t velocity yaw_rate noise k ps).length = ps.length := by
  intro ps
  induction ps with
  | nil => intro k; rfl
  | cons p rest ih => intro k; simp [predictionGo, ih]

/-- One step of `prediction` (kinematics plus noise) touches only the pose
fields of a particle. -/
theorem predictStep_frame (delta_t velocity yaw_rate : ℝ) (n : ℝ × ℝ × ℝ) (p : Particle) :
    (addNoise n (predictDet delta_t velocity yaw_rate p)).id = p.id ∧
    (addNoise n (predictDet delta_t velocity yaw_rate p)).weight = p.weight ∧
    (addNoise n (predictDet delta_t velocity yaw_rate p)).associations = p.associations ∧
    (addNoise n (predictDet delta_t velocity yaw_rate p)).sense_x = p.sense_x ∧
    (addNoise n (predictDet delta_t velocity yaw_rate p)).sense_y = p.sense_y := by
  by_cases hc : (0.0001 : ℝ) < |yaw_rate| <;>
    simp [addNoise, predictDet, hc]

/-- The particle used in the concrete transform evaluation: pose (0, 0, π/2). -/
def particleHalfPi : Particle :=
  { id := 0, x := 0, y := 0, theta := Real.pi / 2, weight := 1
    associations := [], sense_x := [], sense_y := [] }

/-- C1: Revision 2's `convertVehicleToMapCoords` computes both map
coordinates from the original observation, exactly as the spec's rigid
transform states; revision 1 instead overwrites `observation.x` first and
computes `observation.y` from the overwritten value, so at particle pose
(0, 0, π/2) and observation (1, 2) it returns mapY = −2 where the claimed
transform (and revision 2) gives mapY = 1. -/
theorem convertVehicleToMapCoords_claim :
    (∀ (o : LandmarkObs) (p : Particle),
      convertVehicleToMapCoords_v2 o p =
        { id := o.id
          x := p.x + o.x * Real.cos p.theta - o.y * Real.sin p.theta
          y := p.y + o.x * Real.sin p.theta + o.y * Real.cos p.theta }) ∧
    (convertVehicleToMapCoords_v1 { id := 0, x := 1, y := 2 } particleHalfPi).y = -2 ∧
    (convertVehicleToMapCoords_v2 { id := 0, x := 1, y := 2 } particleHalfPi).y = 1 ∧
    (-2 : ℝ) ≠ 1 := by
  refine ⟨fun o p => rfl, ?_, ?_, by norm_num⟩
  · simp [convertVehicleToMapCoords_v1, particleHalfPi, Real.cos_pi_div_two,
      Real.sin_pi_div_two]
  · simp [convertVehicleToMapCoords_v2, particleHalfPi, Real.cos_pi_div_two,
      Real.sin_pi_div_two]

/-- C5: the deterministic (pre-noise) part of `prediction` realises exactly
the claimed kinematics: when `|yawRate| > 1e-4` the curved-motion formulas,
otherwise the straight-line formulas, and in both branches
`theta' = theta + yawRate·deltaT`. -/
theorem prediction_kinematics (delta_t velocity yaw_rate : ℝ) (p : Particle) :
    predictDet delta_t velocity yaw_rate p =
      if 0.0001 < |yaw_rate| then
        { p with
          x := p.x + (velocity / yaw_rate) *
              (Real.sin (p.theta + yaw_rate * delta_t) - Real.sin p.theta)
          y := p.y + (velocity / yaw_rate) *
              (Real.cos p.theta - Real.cos (p.theta + yaw_rate * delta_t))
          theta := p.theta + yaw_rate * delta_t }
      else
        { p with
          x := p.x + velocity * delta_t * Real.cos p.theta
          y := p.y + velocity * delta_t * Real.sin p.theta
          theta := p.theta + yaw_rate * delta_t } := by
  unfold predictDet
  split <;> rfl

/-- C2: revision 2's `updateWeights` recomputes every weight from scratch —
its output does not depend on the weights the particles carried before the
call — while revision 1 multiplies into the existing weight: with an empty
observation list, a single particle entering revision 1 with weight 2 leaves
with weight 2 and entering with weight 5 leaves with weight 5, so two states
differing only in prior weights yield different results. -/
theorem updateWeights_fresh_claim :
    (∀ (sensor_range std_x std_y : ℝ) (observations : List LandmarkObs)
        (map_landmarks : List SingleLandmark) (particles : List Particle) (w : Nat → ℝ),
      updateWeights_v2 sensor_range std_x std_y observations map_landmarks
          (setWeights w particles) =
        updateWeights_v2 sensor_range std_x std_y observations map_landmarks particles) ∧
    updateWeights_v1 1 1 1 [] [] [plainParticle 2] ≠
      updateWeights_v1 1 1 1 [] [] [plainParticle 5] := by
  constructor
  · intro sensor_range std_x std_y observations map_landmarks particles w
    exact map_setWeightsGo
      (updateWeightsP_v2 sensor_range std_x std_y observations map_landmarks)
      (fun p c => rfl) w 0 particles
  · intro h
    have hw := congrArg (fun xs : List Particle => (xs.getD 0 default).weight) h
    simp [updateWeights_v1, updateWeightsP_v1, plainParticle] at hw

/-- C4: the two revisions of `updateWeights` do not assign the same weights:
at the same input (one particle of weight 4, an empty observation list),
revision 1 leaves the weight at 4 while revision 2 overwrites it with 1. -/
theorem updateWeights_revisions_differ :
    updateWeights_v1 1 1 1 [] [] [plainParticle 4] ≠
      updateWeights_v2 1 1 1 [] [] [plainParticle 4] := by
  intro h
  have hw := congrArg (fun xs : List Particle => (xs.getD 0 default).weight) h
  simp [updateWeights_v1, updateWeightsP_v1, updateWeights_v2, updateWeightsP_v2,
    dataAssociation_v2, plainParticle] at hw

/-- C7: with an empty observation list, revision 2's `updateWeights` assigns
every particle the weight 1.0 (the empty-product identity); revision 1
instead leaves each particle's previous weight untouched — a particle
entering with weight 3 leaves with weight 3, not 1. -/
theorem updateWeights_emptyObs_claim :
    (∀ (sensor_range std_x std_y : ℝ) (map_landmarks : List SingleLandmark)
        (particles : List Particle),
      updateWeights_v2 sensor_range std_x std_y [] map_landmarks particles =
        particles.map fun p => { p with weight := 1 }) ∧
    ((updateWeights_v1 2 1 1 [] [] [plainParticle 3]).getD 0 default).weight = 3 ∧
    (3 : ℝ) ≠ 1 := by
  refine ⟨?_, ?_, by norm_num⟩
  · intro sensor_range std_x std_y map_landmarks particles
    rfl
  · simp [updateWeights_v1, updateWeightsP_v1, plainParticle]

/-- C8: modelling the draws of `discrete_distribution` as an index stream
that always lands in the support of the weight vector, `resample` replaces
the set with equally many draws, and when exactly one particle has positive
weight every resampled particle is a copy of that particle. -/
theorem resample_unique_positive (particles : List Particle) (draw : Nat → Nat) (j : Nat)
    (hj : j < particles.length)
    (hpos : 0 < (particles.getD j default).weight)
    (hzero : ∀ i, i < particles.length → i ≠ j → (particles.getD i default).weight = 0)
    (hdraw : ∀ i, i < particles.length →
      draw i < particles.length ∧ 0 < (particles.getD (draw i) default).weight) :
    (resample particles draw).length = particles.length ∧
    ∀ q ∈ resample particles draw, q = particles.getD j default := by
  constructor
  · simp [resample]
  · intro q hq
    simp only [resample, List.mem_map, List.mem_range] at hq
    obtain ⟨i, hi, rfl⟩ := hq
    obtain ⟨hdl, hdp⟩ := hdraw i hi
    by_cases hij : draw i = j
    · rw [hij]
    · rw [hzero (draw i) hdl hij] at hdp
      exact absurd hdp (lt_irrefl 0)

/-- The three-particle set with weights [0, 1, 0] from the spec's resampling
scenario. -/
def resampleScenario : List Particle :=
  [plainParticle 0, plainParticle 1, plainParticle 0]

/-- Witness for `resample_unique_positive`: weights [0, 1, 0] and the draw
stream that always picks index 1. -/
theorem resample_unique_positive_witness :
    ((1 : Nat) < resampleScenario.length) ∧
    (0 < (resampleScenario.getD 1 default).weight) ∧
    (∀ i, i < resampleScenario.length → i ≠ 1 →
      (resampleScenario.getD i default).weight = 0) ∧
    (∀ i, i < resampleScenario.length →
      (fun _ : Nat => 1) i < resampleScenario.length ∧
        0 < (resampleScenario.getD ((fun _ : Nat => 1) i) default).weight) ∧
    ((resample resampleScenario (fun _ => 1)).length = resampleScenario.length ∧
      ∀ q ∈ resample resampleScenario (fun _ => 1),
        q = resampleScenario.getD 1 default) := by
  have h1 : (1 : Nat) < resampleScenario.length := by
    simp [resampleScenario]
  have h2 : 0 < (resampleScenario.getD 1 default).weight := by
    simp [resampleScenario, plainParticle]
  have h3 : ∀ i, i < resampleScenario.length → i ≠ 1 →
      (resampleScenario.getD i default).weight = 0 := by
    intro i hi hne
    simp only [resampleScenario, List.length_cons, List.length_nil] at hi
    interval_cases i
    · simp [resampleScenario, plainParticle]
    · exact absurd rfl hne
    · simp [resampleScenario, plainParticle]
  have h4 : ∀ i, i < resampleScenario.length →
      (fun _ : Nat => 1) i < resampleScenario.length ∧
        0 < (resampleScenario.getD ((fun _ : Nat => 1) i) default).weight :=
    fun i _ => ⟨h1, h2⟩
  exact ⟨h1, h2, h3, h4, resample_unique_positive resampleScenario (fun _ => 1) 1 h1 h2 h3 h4⟩

/-- C9 counterexample: calling revision 1's `init` twice on an initially
empty filter leaves 200 particles in a filter whose `num_particles` is 100 —
a second `init` grows the particle vector instead of re-initialising it, so
the claimed invariant `len(particles) == numParticles` is broken. -/
theorem init_twice_counterexample :
    (init_v1 (init_v1 emptyFilter (fun _ => 0) (fun _ => 0) (fun _ => 0))
        (fun _ => 0) (fun _ => 0) (fun _ => 0)).particles.length = 200 ∧
    (init_v1 (init_v1 emptyFilter (fun _ => 0) (fun _ => 0) (fun _ => 0))
        (fun _ => 0) (fun _ => 0) (fun _ => 0)).num_particles = 100 ∧
    (200 : Nat) ≠ 100 := by
  refine ⟨?_, rfl, by norm_num⟩
  simp [init_v1, initParticles, emptyFilter]

/-- C9 (amended): `init` appends `numParticles` fresh particles to whatever
particle vector is already present (so the invariant
`len(particles) == numParticles` holds after an `init` on an empty filter
but a repeated `init` grows the set), and the particle count is preserved by
`prediction`, both revisions of `updateWeights`, and `resample`. -/
theorem particle_count_invariant :
    (∀ (st : ParticleFilterState) (sample_x sample_y sample_theta : Nat → ℝ),
      (init_v1 st sample_x sample_y sample_theta).particles.length =
          st.particles.length + 100 ∧
      (init_v1 st sample_x sample_y sample_theta).num_particles = 100 ∧
      (init_v2 st sample_x sample_y sample_theta).particles.length =
          st.particles.length + 200 ∧
      (init_v2 st sample_x sample_y sample_theta).num_particles = 200) ∧
    (∀ (delta_t velocity yaw_rate : ℝ) (noise : Nat → ℝ × ℝ × ℝ)
        (particles : List Particle),
      (prediction delta_t velocity yaw_rate noise particles).length = particles.length) ∧
    (∀ (sensor_range std_x std_y : ℝ) (observations : List LandmarkObs)
        (map_landmarks : List SingleLandmark) (particles : List Particle),
      (updateWeights_v1 sensor_range std_x std_y observations map_landmarks
          particles).length = particles.length ∧
      (updateWeights_v2 sensor_range std_x std_y observations map_landmarks
          particles).length = particles.length) ∧
    (∀ (particles : List Particle) (draw : Nat → Nat),
      (resample particles draw).length = particles.length) := by
  refine ⟨?_, ?_, ?_, ?_⟩
  · intro st sample_x sample_y sample_theta
    refine ⟨?_, rfl, ?_, rfl⟩ <;> simp [init_v1, init_v2, initParticles]
  · intro delta_t velocity yaw_rate noise particles
    exact predictionGo_length delta_t velocity yaw_rate noise particles 0
  · intro sensor_range std_x std_y observations map_landmarks particles
    constructor <;> simp [updateWeights_v1, updateWeights_v2]
  · intro particles draw
    simp [resample]

/-- C10: `prediction` modifies only the pose fields: the particle count and
every particle's `id`, `weight`, `associations`, `sense_x` and `sense_y` are
unchanged (stated positionally via `getD`, with both sides defaulting
identically beyond the list length). -/
theorem prediction_frame (delta_t velocity yaw_rate : ℝ) (noise : Nat → ℝ × ℝ × ℝ)
    (particles : List Particle) :
    (prediction delta_t velocity yaw_rate noise particles).length = particles.length ∧
    ∀ i : Nat,
      ((prediction delta_t velocity yaw_rate noise particles).getD i default).id =
          (particles.getD i default).id ∧
      ((prediction delta_t velocity yaw_rate noise particles).getD i default).weight =
          (particles.getD i default).weight ∧
      ((prediction delta_t velocity yaw_rate noise particles).getD i default).associations =
          (particles.getD i default).associations ∧
      ((prediction delta_t velocity yaw_rate noise particles).getD i default).sense_x =
          (particles.getD i default).sense_x ∧
      ((prediction delta_t velocity yaw_rate noise particles).getD i default).sense_y =
          (particles.getD i default).sense_y := by
  refine ⟨predictionGo_length delta_t velocity yaw_rate noise particles 0, ?_⟩
  have main : ∀ (ps : List Particle) (k i : Nat),
      ((predictionGo delta_t velocity yaw_rate noise k ps).getD i default).id =
          (ps.getD i default).id ∧
      ((predictionGo delta_t velocity yaw_rate noise k ps).getD i default).weight =
          (ps.getD i default).weight ∧
      ((predictionGo delta_t velocity yaw_rate noise k ps).getD i default).associations =
          (ps.getD i default).associations ∧
      ((predictionGo delta_t velocity yaw_rate noise k ps).getD i default).sense_x =
          (ps.getD i default).sense_x ∧
      ((predictionGo delta_t velocity yaw_rate noise k ps).getD i default).sense_y =
          (ps.getD i default).sense_y := by
    intro ps
    induction ps with
    | nil => intro k i; exact ⟨rfl, rfl, rfl, rfl, rfl⟩
    | cons p rest ih =>
        intro k i
        cases i with
        | zero =>
            simpa [predictionGo] using
              predictStep_frame delta_t velocity yaw_rate (noise k) p
        | succ i' =>
            simpa [predictionGo] using ih (k + 1) i'
  exact main particles 0

end KidnappedVehicle

end
